import Mathlib

/-!
Verification development for the teaching script
03-Intro-to-GIS/03a_Intro_to_GIS_Revised.py.

The script is a straight-line sequence of notebook cells: it loads vector
data with geopandas, inspects it, reprojects it, plots it with matplotlib,
contextily and folium, and writes selections back to disk.  We embed it at
two levels:

1. a concrete statement trace (the `script` list below), transcribing every
   executable statement of the file with its line number, syntactic kind,
   the external-library calls it makes, the variables it defines and uses,
   its coordinate-reference-system argument when it has one, and the vector
   file format it reads or writes when it does;

2. a value model of the geopandas operations the claims are about
   (GeoDataFrame, to_crs, area, total_bounds, row slicing, to_file),
   with rational coordinates.

A small sequential execution semantics (runFrom, PyStep) over the trace
settles the error-propagation and single-threadedness claims.
-/

/-- Coordinate reference systems appearing in the script: WGS 84
(EPSG 4326, geographic, degree units) and Web Mercator (EPSG 3857,
projected, metre units).  No other CRS occurs in the file. -/
inductive CRS where
  | epsg4326
  | epsg3857
deriving DecidableEq, Repr

/-- EPSG 4326 is a geographic (degree-based) CRS; EPSG 3857 is a projected
CRS in metres. -/
def CRS.isGeographic : CRS → Bool
  | .epsg4326 => true
  | .epsg3857 => false

/-- Vector file formats the script reads or writes through geopandas. -/
inductive FileFmt where
  | shapefile
  | geojson
deriving DecidableEq, Repr

/-- External code bases a statement of the script can call into.
`custom` stands for original, repository-authored computation; it is never
produced by `libraryOf` because the script contains none. -/
inductive Lib where
  | geopandas
  | contextily
  | shapely
  | matplotlib
  | folium
  | fiona
  | xyzservices
  | pandas
  | ipythonShell
  | pythonCore
  | custom
deriving DecidableEq, Repr

/-- Syntactic statement kinds.  The script only ever uses the first four;
the remaining constructors (loops, definitions, exception handlers,
thread/process/async creation) exist so that their absence from the trace
is a meaningful, checkable statement. -/
inductive StmtKind where
  | importStmt
  | shellCmd
  | assignStmt
  | exprStmt
  | tryExcept
  | forLoop
  | whileLoop
  | funcDef
  | classDef
  | withStmt
  | raiseStmt
  | asyncSpawn
deriving DecidableEq, Repr

/-- Python names bound or referenced by the script (modules, frames,
axes, scalars, intermediate objects). -/
inductive Var where
  | gpd | ctx | plt | folium | fiona | xyz
  | pointCls | lineStringCls | polygonCls
  | filepath | data | data_in_3857 | ax
  | w | s | e | n
  | img | ext | fig | ax_bounds | m
  | health_sites_gdf | outfp | selection | newdata
  | coordinates | poly | data_centroid
deriving DecidableEq, Repr

/-- Every distinct library call the script makes, named after its
receiver and method in the source. -/
inductive Callee where
  | fiona_supported_drivers
  | ipython_system
  | gpd_read_file
  | gpd_GeoDataFrame
  | df_head | df_columns | df_getitem | df_iloc | df_dtypes
  | df_astype | df_setitem | df_values | df_slice | df_loc_set
  | py_type | py_print
  | gdf_bounds | gdf_boundary | gdf_crs | gdf_area
  | gdf_to_crs | gdf_set_crs | gdf_plot | gdf_explore
  | gdf_total_bounds | gdf_dissolve | gdf_centroid | gdf_to_file
  | ax_set_title | ax_set_xlabel | ax_set_ylabel
  | ax_set_xlim | ax_set_ylim | ax_imshow | ax_set | ax_set_axis_off
  | plt_show | plt_figure | plt_axis | plt_savefig
  | fig_add_subplot
  | ctx_add_basemap | ctx_providers | ctx_bounds2img
  | folium_Map | folium_LayerControl | folium_add_to
  | shapely_Polygon
  | xyz_provider
deriving DecidableEq, Repr

/-- Library each call belongs to.  GeoDataFrame methods inherited from
pandas (head, columns, item access, slicing, astype, loc assignment,
dtypes, values) are classified as pandas; geopandas-specific methods as
geopandas; print and type are Python builtins. -/
def libraryOf : Callee → Lib
  | .fiona_supported_drivers => .fiona
  | .ipython_system => .ipythonShell
  | .gpd_read_file => .geopandas
  | .gpd_GeoDataFrame => .geopandas
  | .df_head => .pandas
  | .df_columns => .pandas
  | .df_getitem => .pandas
  | .df_iloc => .pandas
  | .df_dtypes => .pandas
  | .df_astype => .pandas
  | .df_setitem => .pandas
  | .df_values => .pandas
  | .df_slice => .pandas
  | .df_loc_set => .pandas
  | .py_type => .pythonCore
  | .py_print => .pythonCore
  | .gdf_bounds => .geopandas
  | .gdf_boundary => .geopandas
  | .gdf_crs => .geopandas
  | .gdf_area => .geopandas
  | .gdf_to_crs => .geopandas
  | .gdf_set_crs => .geopandas
  | .gdf_plot => .geopandas
  | .gdf_explore => .geopandas
  | .gdf_total_bounds => .geopandas
  | .gdf_dissolve => .geopandas
  | .gdf_centroid => .geopandas
  | .gdf_to_file => .geopandas
  | .ax_set_title => .matplotlib
  | .ax_set_xlabel => .matplotlib
  | .ax_set_ylabel => .matplotlib
  | .ax_set_xlim => .matplotlib
  | .ax_set_ylim => .matplotlib
  | .ax_imshow => .matplotlib
  | .ax_set => .matplotlib
  | .ax_set_axis_off => .matplotlib
  | .plt_show => .matplotlib
  | .plt_figure => .matplotlib
  | .plt_axis => .matplotlib
  | .plt_savefig => .matplotlib
  | .fig_add_subplot => .matplotlib
  | .ctx_add_basemap => .contextily
  | .ctx_providers => .contextily
  | .ctx_bounds2img => .contextily
  | .folium_Map => .folium
  | .folium_LayerControl => .folium
  | .folium_add_to => .folium
  | .shapely_Polygon => .shapely
  | .xyz_provider => .xyzservices

/-- One executable statement of the script: source line, syntactic kind,
the external calls it makes (in evaluation order), the names it binds,
the names it reads, the frame variable its leading method chain is invoked
on (when there is one), the CRS argument passed to to_crs or set_crs
(when there is one), and the vector file format read or written
(when there is one). -/
structure Stmt where
  line : ℕ
  kind : StmtKind
  callees : List Callee := []
  defines : List Var := []
  uses : List Var := []
  recv : Option Var := none
  crsArg : Option CRS := none
  fileRead : Option FileFmt := none
  fileWrite : Option FileFmt := none
deriving DecidableEq, Repr

set_option maxHeartbeats 3200000 in
/-- The complete executable statement trace of
03a_Intro_to_GIS_Revised.py, in top-to-bottom order.  Prose cells,
comments and empty cells are not statements; the line numbers are those
of the .py file. -/
def script : List Stmt :=
  [ { line := 14, kind := .importStmt, defines := [.gpd] },
    { line := 15, kind := .importStmt, defines := [.ctx] },
    { line := 16, kind := .importStmt, defines := [.pointCls, .lineStringCls, .polygonCls] },
    { line := 17, kind := .importStmt, defines := [.plt] },
    { line := 18, kind := .importStmt, defines := [.folium] },
    { line := 32, kind := .importStmt, defines := [.fiona] },
    { line := 32, kind := .exprStmt, callees := [.fiona_supported_drivers], uses := [.fiona] },
    { line := 48, kind := .shellCmd, callees := [.ipython_system] },
    { line := 55, kind := .assignStmt, defines := [.filepath] },
    { line := 58, kind := .assignStmt, callees := [.gpd_read_file], defines := [.data],
      uses := [.gpd, .filepath], fileRead := some .shapefile },
    { line := 64, kind := .exprStmt, callees := [.df_head], uses := [.data], recv := some .data },
    { line := 70, kind := .exprStmt, callees := [.df_columns], uses := [.data], recv := some .data },
    { line := 77, kind := .exprStmt, callees := [.df_getitem, .df_iloc, .py_type],
      uses := [.data], recv := some .data },
    { line := 85, kind := .exprStmt, callees := [.df_getitem], uses := [.data], recv := some .data },
    { line := 93, kind := .exprStmt, callees := [.gdf_bounds], uses := [.data], recv := some .data },
    { line := 100, kind := .exprStmt, callees := [.gdf_boundary], uses := [.data], recv := some .data },
    { line := 130, kind := .exprStmt, callees := [.gdf_crs], uses := [.data], recv := some .data },
    { line := 137, kind := .exprStmt, callees := [.gdf_area], uses := [.data], recv := some .data },
    { line := 143, kind := .assignStmt, callees := [.gdf_to_crs], defines := [.data_in_3857],
      uses := [.data], recv := some .data, crsArg := some .epsg3857 },
    { line := 144, kind := .exprStmt, callees := [.gdf_area], uses := [.data_in_3857],
      recv := some .data_in_3857 },
    { line := 169, kind := .assignStmt, callees := [.gdf_plot], defines := [.ax],
      uses := [.data], recv := some .data },
    { line := 179, kind := .assignStmt, callees := [.gdf_plot], defines := [.ax],
      uses := [.data], recv := some .data },
    { line := 190, kind := .assignStmt, callees := [.gdf_plot], defines := [.ax],
      uses := [.data], recv := some .data },
    { line := 193, kind := .exprStmt, callees := [.ax_set_title], uses := [.ax], recv := some .ax },
    { line := 196, kind := .exprStmt, callees := [.ax_set_xlabel], uses := [.ax], recv := some .ax },
    { line := 197, kind := .exprStmt, callees := [.ax_set_ylabel], uses := [.ax], recv := some .ax },
    { line := 199, kind := .exprStmt, callees := [.plt_show], uses := [.plt] },
    { line := 211, kind := .exprStmt, callees := [.gdf_crs], uses := [.data], recv := some .data },
    { line := 217, kind := .assignStmt, callees := [.gdf_plot], defines := [.ax],
      uses := [.data], recv := some .data },
    { line := 221, kind := .exprStmt, callees := [.gdf_crs, .ctx_add_basemap],
      uses := [.ctx, .ax, .data] },
    { line := 228, kind := .assignStmt, callees := [.gdf_plot], defines := [.ax],
      uses := [.data], recv := some .data },
    { line := 229, kind := .exprStmt, callees := [.ax_set_xlim], uses := [.ax], recv := some .ax },
    { line := 230, kind := .exprStmt, callees := [.ax_set_ylim], uses := [.ax], recv := some .ax },
    { line := 231, kind := .exprStmt, callees := [.gdf_crs, .ctx_add_basemap],
      uses := [.ctx, .ax, .data] },
    { line := 243, kind := .exprStmt, callees := [.ctx_providers], uses := [.ctx] },
    { line := 251, kind := .assignStmt, callees := [.gdf_plot], defines := [.ax],
      uses := [.data], recv := some .data },
    { line := 254, kind := .exprStmt, callees := [.gdf_crs, .ctx_add_basemap],
      uses := [.ctx, .ax, .data] },
    { line := 256, kind := .exprStmt, callees := [.gdf_crs, .ctx_add_basemap],
      uses := [.ctx, .ax, .data] },
    { line := 264, kind := .assignStmt, callees := [.gdf_total_bounds],
      defines := [.w, .s, .e, .n], uses := [.data], recv := some .data },
    { line := 265, kind := .exprStmt, callees := [.gdf_total_bounds], uses := [.data],
      recv := some .data },
    { line := 273, kind := .assignStmt, callees := [.ctx_bounds2img], defines := [.img, .ext],
      uses := [.ctx, .w, .s, .e, .n] },
    { line := 274, kind := .assignStmt, callees := [.plt_figure], defines := [.fig],
      uses := [.plt] },
    { line := 275, kind := .assignStmt, callees := [.fig_add_subplot], defines := [.ax],
      uses := [.fig], recv := some .fig },
    { line := 276, kind := .exprStmt, callees := [.ax_imshow], uses := [.ax, .img, .ext],
      recv := some .ax },
    { line := 278, kind := .exprStmt, callees := [.gdf_to_crs, .gdf_plot],
      uses := [.data, .ax], recv := some .data, crsArg := some .epsg3857 },
    { line := 279, kind := .assignStmt, callees := [.gdf_to_crs, .gdf_total_bounds],
      defines := [.ax_bounds], uses := [.data], recv := some .data, crsArg := some .epsg3857 },
    { line := 280, kind := .exprStmt, callees := [.ax_set], uses := [.ax, .ax_bounds],
      recv := some .ax },
    { line := 281, kind := .exprStmt, callees := [.plt_axis], uses := [.plt] },
    { line := 282, kind := .exprStmt, callees := [.plt_savefig], uses := [.plt] },
    { line := 294, kind := .assignStmt, callees := [.gdf_explore], defines := [.m],
      uses := [.data], recv := some .data },
    { line := 295, kind := .exprStmt, uses := [.m] },
    { line := 305, kind := .importStmt, defines := [.xyz] },
    { line := 306, kind := .exprStmt, uses := [.xyz] },
    { line := 312, kind := .exprStmt, callees := [.xyz_provider, .gdf_explore],
      uses := [.data, .xyz], recv := some .data },
    { line := 320, kind := .assignStmt, callees := [.gpd_read_file],
      defines := [.health_sites_gdf], uses := [.gpd], fileRead := some .geojson },
    { line := 321, kind := .exprStmt, uses := [.health_sites_gdf] },
    { line := 328, kind := .exprStmt, callees := [.gdf_explore], uses := [.health_sites_gdf],
      recv := some .health_sites_gdf },
    { line := 334, kind := .exprStmt, callees := [.df_dtypes], uses := [.health_sites_gdf],
      recv := some .health_sites_gdf },
    { line := 341, kind := .assignStmt, callees := [.df_getitem, .df_astype, .df_setitem],
      defines := [.health_sites_gdf], uses := [.health_sites_gdf],
      recv := some .health_sites_gdf },
    { line := 348, kind := .assignStmt, callees := [.xyz_provider, .gdf_explore],
      defines := [.m], uses := [.data, .xyz], recv := some .data },
    { line := 350, kind := .assignStmt, callees := [.df_getitem, .gdf_explore],
      defines := [.m], uses := [.health_sites_gdf, .m], recv := some .health_sites_gdf },
    { line := 357, kind := .exprStmt, uses := [.m] },
    { line := 365, kind := .assignStmt,
      callees := [.gdf_dissolve, .gdf_centroid, .df_values, .df_getitem],
      defines := [.data_centroid], uses := [.data], recv := some .data },
    { line := 366, kind := .assignStmt, callees := [.folium_Map], defines := [.m],
      uses := [.folium, .data_centroid] },
    { line := 369, kind := .assignStmt, callees := [.xyz_provider, .gdf_explore],
      defines := [.m], uses := [.data, .xyz, .m], recv := some .data },
    { line := 374, kind := .assignStmt, callees := [.df_getitem, .gdf_explore],
      defines := [.m], uses := [.health_sites_gdf, .m], recv := some .health_sites_gdf },
    { line := 383, kind := .exprStmt, callees := [.folium_LayerControl, .folium_add_to],
      uses := [.folium, .m] },
    { line := 384, kind := .exprStmt, uses := [.m] },
    { line := 394, kind := .shellCmd, callees := [.ipython_system] },
    { line := 401, kind := .assignStmt, defines := [.outfp] },
    { line := 404, kind := .assignStmt, callees := [.df_slice], defines := [.selection],
      uses := [.data], recv := some .data },
    { line := 407, kind := .exprStmt, callees := [.gdf_to_file], uses := [.selection, .outfp],
      recv := some .selection, fileWrite := some .geojson },
    { line := 417, kind := .assignStmt, callees := [.gpd_GeoDataFrame], defines := [.newdata],
      uses := [.gpd] },
    { line := 420, kind := .assignStmt, callees := [.df_setitem], defines := [.newdata],
      uses := [.newdata], recv := some .newdata },
    { line := 423, kind := .exprStmt, callees := [.py_print], uses := [.newdata] },
    { line := 430, kind := .assignStmt, defines := [.coordinates] },
    { line := 433, kind := .assignStmt, callees := [.shapely_Polygon], defines := [.poly],
      uses := [.polygonCls, .coordinates] },
    { line := 436, kind := .exprStmt, uses := [.poly] },
    { line := 443, kind := .assignStmt, callees := [.df_loc_set], defines := [.newdata],
      uses := [.newdata, .poly], recv := some .newdata },
    { line := 444, kind := .exprStmt, uses := [.newdata] },
    { line := 450, kind := .assignStmt, callees := [.df_loc_set], defines := [.newdata],
      uses := [.newdata], recv := some .newdata },
    { line := 451, kind := .exprStmt, uses := [.newdata] },
    { line := 460, kind := .assignStmt, callees := [.gdf_set_crs], defines := [.newdata],
      uses := [.newdata], recv := some .newdata, crsArg := some .epsg4326 },
    { line := 463, kind := .exprStmt, callees := [.gdf_crs], uses := [.newdata],
      recv := some .newdata },
    { line := 469, kind := .assignStmt, defines := [.outfp] },
    { line := 472, kind := .exprStmt, callees := [.gdf_to_file], uses := [.newdata, .outfp],
      recv := some .newdata, fileWrite := some .shapefile },
    { line := 479, kind := .assignStmt, callees := [.gdf_to_crs, .gdf_plot], defines := [.ax],
      uses := [.newdata], recv := some .newdata, crsArg := some .epsg3857 },
    { line := 480, kind := .exprStmt, callees := [.xyz_provider, .ctx_add_basemap],
      uses := [.ctx, .ax, .xyz] },
    { line := 481, kind := .exprStmt, callees := [.ax_set_axis_off], uses := [.ax],
      recv := some .ax },
    { line := 482, kind := .exprStmt, callees := [.plt_savefig], uses := [.plt] } ]

/-! ### Trace analysis functions -/

/-- A name is defined somewhere in a list of statements. -/
def definedIn (v : Var) (l : List Stmt) : Bool :=
  l.any fun t => t.defines.contains v

/-- Scan helper: every name a statement uses was defined by an earlier
statement (the accumulator holds the statements already executed). -/
def wellScopedAux : List Stmt → List Stmt → Bool
  | _, [] => true
  | seen, t :: rest =>
      (t.uses.all fun v => definedIn v seen) && wellScopedAux (seen ++ [t]) rest

/-- Every statement consumes only names produced by earlier statements. -/
def wellScoped (l : List Stmt) : Bool := wellScopedAux [] l

/-- Scan helper: whenever ctx.add_basemap is called, the most recent
statement that bound the name ax made a plot call. -/
def basemapAux : List Stmt → List Stmt → Bool
  | _, [] => true
  | seen, t :: rest =>
      ((!t.callees.contains Callee.ctx_add_basemap) ||
        (match (seen.filter fun u => u.defines.contains Var.ax).getLast? with
         | some u => u.callees.contains Callee.gdf_plot
         | none => false))
      && basemapAux (seen ++ [t]) rest

/-- Every basemap overlay is applied to an axes object produced by a
prior plot call. -/
def basemapOnPlottedAxes (l : List Stmt) : Bool := basemapAux [] l

/-- Index of the first gpd.read_file statement. -/
def firstReadIdx (l : List Stmt) : ℕ :=
  l.findIdx fun t => t.callees.contains Callee.gpd_read_file

/-- Every reprojection (to_crs) statement comes strictly after the first
vector file load. -/
def reprojectionAfterLoad (l : List Stmt) : Bool :=
  l.enum.all fun p =>
    (!p.2.callees.contains Callee.gdf_to_crs) || decide (firstReadIdx l < p.1)

/-- Every file export (to_file) statement comes strictly after every
vector file load (read_file) statement. -/
def exportsAfterLoads (l : List Stmt) : Bool :=
  l.enum.all fun p =>
    (!p.2.callees.contains Callee.gdf_to_file) ||
      (l.enum.all fun q =>
        (!q.2.callees.contains Callee.gpd_read_file) || decide (q.1 < p.1))

/-- Scan helper: every rendering statement (plot or explore) is invoked
on a frame variable that an earlier statement defined. -/
def rendersAux : List Stmt → List Stmt → Bool
  | _, [] => true
  | seen, t :: rest =>
      ((!(t.callees.contains Callee.gdf_plot || t.callees.contains Callee.gdf_explore)) ||
        (match t.recv with
         | some v => definedIn v seen
         | none => false))
      && rendersAux (seen ++ [t]) rest

/-- Every rendering call operates on already-produced data. -/
def rendersOnDefinedData (l : List Stmt) : Bool := rendersAux [] l

/-- Pointwise update of a CRS environment. -/
def updateCrs (env : Var → Option CRS) (v : Var) (c : CRS) : Var → Option CRS :=
  fun u => if u = v then some c else env u

/-- Effect of one statement on the CRS each frame variable carries.
gpd.read_file yields a frame in EPSG 4326: both input files of the script
ship WGS 84 coordinates, which the script itself confirms by printing
data.crs (source lines 130 and 210-211).  A plain to_crs or set_crs
assignment retags the assigned variable with its CRS argument. -/
def stepCrs (env : Var → Option CRS) (t : Stmt) : Var → Option CRS :=
  if t.callees.contains Callee.gpd_read_file then
    match t.defines with
    | [v] => updateCrs env v CRS.epsg4326
    | _ => env
  else if t.callees == [Callee.gdf_to_crs] || t.callees == [Callee.gdf_set_crs] then
    match t.defines, t.crsArg with
    | [v], some c => updateCrs env v c
    | _, _ => env
  else env

/-- CRS environment holding before the statement at index i runs. -/
def crsBefore (l : List Stmt) (i : ℕ) : Var → Option CRS :=
  (l.take i).foldl stepCrs fun _ => none

/-- An area statement is acceptable when it is either the display-only
call of line 137 on a frame still in the geographic CRS (binding
nothing), or the call of line 144 on a frame already reprojected to
EPSG 3857. -/
def areaStmtOk (l : List Stmt) (p : ℕ × Stmt) : Bool :=
  match p.2.recv with
  | some v =>
      (crsBefore l p.1 v == some CRS.epsg4326 && p.2.defines == [] && p.2.line == 137) ||
      (crsBefore l p.1 v == some CRS.epsg3857 && p.2.line == 144)
  | none => false

/-- The trace makes exactly two area calls and both are acceptable in the
sense of areaStmtOk. -/
def areaCallsAudit (l : List Stmt) : Bool :=
  ((l.enum.filter fun p => p.2.callees.contains Callee.gdf_area).all fun p =>
    areaStmtOk l p) &&
  (l.countP fun t => t.callees.contains Callee.gdf_area) == 2

/-- Libraries that count as geospatial for the claim that every operation
is a geospatial-library invocation. -/
def geospatialLibSet : List Lib :=
  [Lib.geopandas, Lib.contextily, Lib.shapely, Lib.folium, Lib.fiona, Lib.xyzservices]

/-- A statement consists of exactly one call, and that call goes into a
geospatial library. -/
def stmtIsSingleGeoCall (t : Stmt) : Bool :=
  match t.callees with
  | [c] => geospatialLibSet.contains (libraryOf c)
  | _ => false

/-- A call into any pre-built external code base or a Python builtin;
`custom` would mark repository-original computation. -/
def calleeIsExternal (c : Callee) : Bool := !(libraryOf c == Lib.custom)

/-- A statement is pedagogical glue (an import, a shell command, a bare
display expression or literal assignment) or performs its computation
exclusively through external-library calls. -/
def stmtGlueOrLibrary (t : Stmt) : Bool :=
  (t.kind == StmtKind.importStmt || t.kind == StmtKind.shellCmd ||
   t.kind == StmtKind.assignStmt || t.kind == StmtKind.exprStmt)
  && t.callees.all calleeIsExternal

/-! ### Value model of the geopandas operations -/

/-- A coordinate pair as stored by shapely and geopandas: x first
(longitude in a geographic CRS), y second (latitude). -/
structure PyPoint where
  x : ℚ
  y : ℚ
deriving DecidableEq, Repr

/-- One feature: its non-geometry attribute columns (name-value pairs)
and its geometry, a list of coordinate points. -/
structure Row where
  attrs : List (String × String)
  geometry : List PyPoint
deriving DecidableEq, Repr

/-- The tabular entity of the script: rows plus a CRS tag; the tag is
none for a frame constructed without a CRS (gpd.GeoDataFrame()). -/
structure GeoDataFrame where
  rows : List Row
  crs : Option CRS
deriving DecidableEq, Repr

/-- Shapely polygon construction from a list of coordinate tuples
(source line 433): the first tuple component becomes x, the second y. -/
def Polygon (l : List (ℚ × ℚ)) : List PyPoint := l.map fun p => ⟨p.1, p.2⟩

/-- The coordinate-tuple list of the MIT main campus polygon, copied
verbatim from source line 430. -/
def coordinates : List (ℚ × ℚ) :=
  [(-71.092562, 42.357602), (-71.080155, 42.361553),
   (-71.089817, 42.362584), (-71.094688, 42.360198)]

/-- Reference longitude of the MIT main campus (decimal degrees, WGS 84);
geographic ground truth used to identify which tuple component of
`coordinates` is the longitude. -/
def mitCampusLon : ℚ := -71.09

/-- Reference latitude of the MIT main campus (decimal degrees, WGS 84). -/
def mitCampusLat : ℚ := 42.36

/-- The location argument the script passes to folium.Map at source line
366: folium expects latitude first, so the script swaps the stored (x, y)
order to (y, x). -/
def foliumMapLocation (c : PyPoint) : ℚ × ℚ := (c.y, c.x)

/-- Reprojection (source lines 143, 278-279, 479): applies the CRS
transformation f to every coordinate of every geometry and retags the
frame; the transformation itself lives in the projection library and is
kept abstract. -/
def GeoDataFrame.to_crs (f : PyPoint → PyPoint) (t : CRS) (d : GeoDataFrame) : GeoDataFrame :=
  { rows := d.rows.map fun r => { r with geometry := r.geometry.map f },
    crs := some t }

/-- Warning category geopandas emits from .area on a geographic CRS. -/
inductive AreaWarning where
  | geographicCRS
deriving DecidableEq, Repr

/-- Cross product term of the shoelace formula. -/
def cross2 (p q : PyPoint) : ℚ := p.x * q.y - q.x * p.y

/-- Shoelace sum of a ring that started at p0: consecutive edge terms,
with a closing term from the last point back to p0. -/
def shoelaceFrom (p0 : PyPoint) : List PyPoint → ℚ
  | [] => 0
  | [p] => cross2 p p0
  | p :: q :: rest => cross2 p q + shoelaceFrom p0 (q :: rest)

/-- Unsigned polygon ring area (shapely semantics). -/
def ringArea : List PyPoint → ℚ
  | [] => 0
  | p :: rest => |shoelaceFrom p (p :: rest)| / 2

/-- The .area accessor (source lines 137 and 144): per-row ring areas in
the units of the frame CRS, together with the warning geopandas emits
when that CRS is geographic. -/
def GeoDataFrame.area (d : GeoDataFrame) : Option AreaWarning × List ℚ :=
  (if (Option.map CRS.isGeographic d.crs).getD false
     then some AreaWarning.geographicCRS else none,
   d.rows.map fun r => ringArea r.geometry)

/-- All coordinate points of all rows of a frame. -/
def allPoints (d : GeoDataFrame) : List PyPoint :=
  d.rows.bind fun r => r.geometry

/-- Left fold of min over a list with a seed. -/
def foldMinQ (a : ℚ) (l : List ℚ) : ℚ := l.foldl min a

/-- Left fold of max over a list with a seed. -/
def foldMaxQ (a : ℚ) (l : List ℚ) : ℚ := l.foldl max a

/-- The total_bounds accessor (source lines 264-265): the tuple
(min x, min y, max x, max y) over every coordinate of every geometry,
i.e. (west, south, east, north); (0,0,0,0) for an empty frame. -/
def GeoDataFrame.total_bounds (d : GeoDataFrame) : ℚ × ℚ × ℚ × ℚ :=
  match allPoints d with
  | [] => (0, 0, 0, 0)
  | p :: ps =>
      (foldMinQ p.x (ps.map PyPoint.x), foldMinQ p.y (ps.map PyPoint.y),
       foldMaxQ p.x (ps.map PyPoint.x), foldMaxQ p.y (ps.map PyPoint.y))

/-- Positional row slicing data[a:b] (source line 404): pandas slice
semantics, rows a through b-1. -/
def sliceRows (a b : ℕ) (d : GeoDataFrame) : GeoDataFrame :=
  { d with rows := (d.rows.drop a).take (b - a) }

/-- A vector file on disk: its format and the features written into it. -/
structure VectorFile where
  fmt : FileFmt
  features : List Row
deriving DecidableEq, Repr

/-- Serialization by to_file (source lines 407 and 472): writes every row
of the frame in the requested format; a pure function of the frame. -/
def GeoDataFrame.to_file (fmt : FileFmt) (d : GeoDataFrame) : VectorFile :=
  ⟨fmt, d.rows⟩

/-- Output path of the GeoJSON selection export, source line 401. -/
def outSelectionPath : String := "output_data/data_selection.json"

/-- In-memory state of the export cell: the loaded frame, the selection
binding (none before line 404 runs), and the files written so far. -/
structure ExportState where
  data : GeoDataFrame
  selection : Option GeoDataFrame
  outFiles : List (String × VectorFile)
deriving DecidableEq, Repr

/-- Source line 404: selection = data[0:20]. -/
def selectStep (st : ExportState) : ExportState :=
  { st with selection := some (sliceRows 0 20 st.data) }

/-- Source line 407: selection.to_file(outfp, driver=GeoJSON).  Writes a
new file and touches no in-memory frame. -/
def writeSelectionStep (st : ExportState) : ExportState :=
  match st.selection with
  | some sel =>
      { st with outFiles :=
          st.outFiles ++ [(outSelectionPath, GeoDataFrame.to_file FileFmt.geojson sel)] }
  | none => st

/-- State pair for the reprojection cell of source line 143: the original
frame bound to data and the frame bound to data_in_3857 (none before the
cell runs). -/
def reprojectStep (f : PyPoint → PyPoint) (st : GeoDataFrame × Option GeoDataFrame) :
    GeoDataFrame × Option GeoDataFrame :=
  (st.1, some (GeoDataFrame.to_crs f CRS.epsg3857 st.1))

/-! ### Sequential execution semantics -/

/-- Result of running a statement list: normal completion, or an uncaught
exception leaving the state the partial execution produced. -/
inductive Outcome (σ : Type) where
  | ok : σ → Outcome σ
  | raised : σ → Outcome σ
deriving DecidableEq, Repr

/-- Sequential big-step execution of a statement list under an arbitrary
per-statement semantics that may raise.  An exception raised inside a
try/except statement would be recovered; raised anywhere else it aborts
the run with the state reached so far. -/
def runFrom {σ : Type} (sem : Stmt → σ → Except Unit σ) : List Stmt → σ → Outcome σ
  | [], st => .ok st
  | t :: rest, st =>
      match sem t st with
      | .ok st2 => runFrom sem rest st2
      | .error _ =>
          if t.kind = StmtKind.tryExcept then runFrom sem rest st else .raised st

/-- Small-step execution relation: a configuration is the remaining
statement list and the current state; one step runs exactly the head
statement to completion before the rest becomes runnable. -/
inductive PyStep {σ : Type} (sem : Stmt → σ → Option σ) :
    List Stmt × σ → List Stmt × σ → Prop where
  | exec : ∀ (t : Stmt) (rest : List Stmt) (st st2 : σ),
      sem t st = some st2 → PyStep sem (t :: rest, st) (rest, st2)

/-! ### Fold lemmas for total_bounds -/

/-- Left min-fold is bounded by its seed. -/
theorem foldMinQ_le_init (l : List ℚ) : ∀ a : ℚ, foldMinQ a l ≤ a := by
  induction l with
  | nil => intro a; simp [foldMinQ]
  | cons c l ih =>
      intro a
      have h := ih (min a c)
      simp only [foldMinQ, List.foldl_cons] at h ⊢
      exact le_trans h (min_le_left a c)

/-- Left min-fold is bounded by every list element. -/
theorem foldMinQ_le_mem (l : List ℚ) : ∀ a b : ℚ, b ∈ l → foldMinQ a l ≤ b := by
  induction l with
  | nil => intro a b hb; cases hb
  | cons c l ih =>
      intro a b hb
      rcases List.mem_cons.mp hb with hc | hl
      · subst hc
        have h := foldMinQ_le_init l (min a b)
        simp only [foldMinQ, List.foldl_cons] at h ⊢
        exact le_trans h (min_le_right a b)
      · simpa only [foldMinQ, List.foldl_cons] using ih (min a c) b hl

/-- Left min-fold returns its seed or a list element. -/
theorem foldMinQ_mem (l : List ℚ) : ∀ a : ℚ, foldMinQ a l = a ∨ foldMinQ a l ∈ l := by
  induction l with
  | nil => intro a; left; simp [foldMinQ]
  | cons c l ih =>
      intro a
      have h := ih (min a c)
      simp only [foldMinQ, List.foldl_cons] at h ⊢
      rcases h with h | h
      · rcases min_choice a c with hc | hc
        · left; rw [h, hc]
        · right; rw [h, hc]; exact List.mem_cons_self c l
      · right; exact List.mem_cons_of_mem c h

/-- Left max-fold dominates its seed. -/
theorem init_le_foldMaxQ (l : List ℚ) : ∀ a : ℚ, a ≤ foldMaxQ a l := by
  induction l with
  | nil => intro a; simp [foldMaxQ]
  | cons c l ih =>
      intro a
      have h := ih (max a c)
      simp only [foldMaxQ, List.foldl_cons] at h ⊢
      exact le_trans (le_max_left a c) h

/-- Left max-fold dominates every list element. -/
theorem mem_le_foldMaxQ (l : List ℚ) : ∀ a b : ℚ, b ∈ l → b ≤ foldMaxQ a l := by
  induction l with
  | nil => intro a b hb; cases hb
  | cons c l ih =>
      intro a b hb
      rcases List.mem_cons.mp hb with hc | hl
      · subst hc
        have h := init_le_foldMaxQ l (max a b)
        simp only [foldMaxQ, List.foldl_cons] at h ⊢
        exact le_trans (le_max_right a b) h
      · simpa only [foldMaxQ, List.foldl_cons] using ih (max a c) b hl

/-- Left max-fold returns its seed or a list element. -/
theorem foldMaxQ_mem (l : List ℚ) : ∀ a : ℚ, foldMaxQ a l = a ∨ foldMaxQ a l ∈ l := by
  induction l with
  | nil => intro a; left; simp [foldMaxQ]
  | cons c l ih =>
      intro a
      have h := ih (max a c)
      simp only [foldMaxQ, List.foldl_cons] at h ⊢
      rcases h with h | h
      · rcases max_choice a c with hc | hc
        · left; rw [h, hc]
        · right; rw [h, hc]; exact List.mem_cons_self c l
      · right; exact List.mem_cons_of_mem c h

/-! ### Claim theorems -/

set_option maxHeartbeats 1600000 in
/-- C10: for every non-empty GeoDataFrame, total_bounds is the tuple
(min x, min y, max x, max y) over all geometries, so after the unpacking
w, s, e, n = data.total_bounds of source line 264 the invariants w ≤ e
and s ≤ n hold, the four values bound every coordinate of every geometry
in the frame, each is attained by some coordinate, and the script indeed
unpacks in the order (w, s, e, n). -/
theorem c10_total_bounds_box (d : GeoDataFrame) (hne : allPoints d ≠ []) :
    d.total_bounds.1 ≤ d.total_bounds.2.2.1 ∧
    d.total_bounds.2.1 ≤ d.total_bounds.2.2.2 ∧
    (∀ r ∈ d.rows, ∀ p ∈ r.geometry,
      d.total_bounds.1 ≤ p.x ∧ p.x ≤ d.total_bounds.2.2.1 ∧
      d.total_bounds.2.1 ≤ p.y ∧ p.y ≤ d.total_bounds.2.2.2) ∧
    d.total_bounds.1 ∈ (allPoints d).map PyPoint.x ∧
    d.total_bounds.2.1 ∈ (allPoints d).map PyPoint.y ∧
    d.total_bounds.2.2.1 ∈ (allPoints d).map PyPoint.x ∧
    d.total_bounds.2.2.2 ∈ (allPoints d).map PyPoint.y ∧
    ((script.filter fun t =>
        t.callees == [Callee.gdf_total_bounds] && t.kind == StmtKind.assignStmt).map
      Stmt.defines) = [[Var.w, Var.s, Var.e, Var.n]] := by
  cases h : allPoints d with
  | nil => exact absurd h hne
  | cons p ps =>
      have htb : d.total_bounds =
          (foldMinQ p.x (ps.map PyPoint.x), foldMinQ p.y (ps.map PyPoint.y),
           foldMaxQ p.x (ps.map PyPoint.x), foldMaxQ p.y (ps.map PyPoint.y)) := by
        unfold GeoDataFrame.total_bounds
        rw [h]
      have hmemx : ∀ q : PyPoint, q ∈ allPoints d →
          foldMinQ p.x (ps.map PyPoint.x) ≤ q.x ∧
          q.x ≤ foldMaxQ p.x (ps.map PyPoint.x) := by
        intro q hq
        rw [h] at hq
        rcases List.mem_cons.mp hq with hc | hl
        · subst hc
          exact ⟨foldMinQ_le_init _ _, init_le_foldMaxQ _ _⟩
        · have hx : q.x ∈ ps.map PyPoint.x := List.mem_map_of_mem PyPoint.x hl
          exact ⟨foldMinQ_le_mem _ _ _ hx, mem_le_foldMaxQ _ _ _ hx⟩
      have hmemy : ∀ q : PyPoint, q ∈ allPoints d →
          foldMinQ p.y (ps.map PyPoint.y) ≤ q.y ∧
          q.y ≤ foldMaxQ p.y (ps.map PyPoint.y) := by
        intro q hq
        rw [h] at hq
        rcases List.mem_cons.mp hq with hc | hl
        · subst hc
          exact ⟨foldMinQ_le_init _ _, init_le_foldMaxQ _ _⟩
        · have hy : q.y ∈ ps.map PyPoint.y := List.mem_map_of_mem PyPoint.y hl
          exact ⟨foldMinQ_le_mem _ _ _ hy, mem_le_foldMaxQ _ _ _ hy⟩
      refine ⟨?_, ?_, ?_, ?_, ?_, ?_, ?_, by decide⟩
      · rw [htb]
        exact le_trans (foldMinQ_le_init _ _) (init_le_foldMaxQ _ _)
      · rw [htb]
        exact le_trans (foldMinQ_le_init _ _) (init_le_foldMaxQ _ _)
      · intro r hr q hq
        have hqall : q ∈ allPoints d := by
          unfold allPoints
          exact List.mem_bind.mpr ⟨r, hr, hq⟩
        rw [htb]
        exact ⟨(hmemx q hqall).1, (hmemx q hqall).2, (hmemy q hqall).1, (hmemy q hqall).2⟩
      · rw [htb]
        simp only [List.map_cons]
        rcases foldMinQ_mem (ps.map PyPoint.x) p.x with hm | hm
        · rw [hm]; exact List.mem_cons_self _ _
        · exact List.mem_cons_of_mem _ hm
      · rw [htb]
        simp only [List.map_cons]
        rcases foldMinQ_mem (ps.map PyPoint.y) p.y with hm | hm
        · rw [hm]; exact List.mem_cons_self _ _
        · exact List.mem_cons_of_mem _ hm
      · rw [htb]
        simp only [List.map_cons]
        rcases foldMaxQ_mem (ps.map PyPoint.x) p.x with hm | hm
        · rw [hm]; exact List.mem_cons_self _ _
        · exact List.mem_cons_of_mem _ hm
      · rw [htb]
        simp only [List.map_cons]
        rcases foldMaxQ_mem (ps.map PyPoint.y) p.y with hm | hm
        · rw [hm]; exact List.mem_cons_self _ _
        · exact List.mem_cons_of_mem _ hm

/-- Concrete two-row frame used to instantiate the C10 theorem. -/
def c10Frame : GeoDataFrame :=
  ⟨[⟨[("FloodText", "High")], [⟨0, 1⟩, ⟨2, 3⟩]⟩,
    ⟨[("FloodText", "Low")], [⟨-1, 5⟩]⟩], some CRS.epsg4326⟩

/-- C10 witness: the theorem applied to a concrete non-empty frame. -/
theorem c10_total_bounds_box_witness :
    allPoints c10Frame ≠ [] ∧
    c10Frame.total_bounds.1 ≤ c10Frame.total_bounds.2.2.1 :=
  ⟨by decide, (c10_total_bounds_box c10Frame (by decide)).1⟩

/-- C8: the row-selection export leaves the source data unchanged.  The
slice data[0:20] of source line 404 yields exactly rows 0 through 19 in
order (all rows when the frame has fewer than 20), and the to_file write
of source line 407 modifies neither the data binding nor the selection
binding, only the set of files on disk. -/
theorem c8_selection_export_frame_effect (d : GeoDataFrame)
    (fs : List (String × VectorFile)) :
    (selectStep ⟨d, none, fs⟩).selection = some (sliceRows 0 20 d) ∧
    (sliceRows 0 20 d).rows = d.rows.take 20 ∧
    (20 ≤ d.rows.length → (sliceRows 0 20 d).rows.length = 20) ∧
    (∀ i : ℕ, i < 20 → (sliceRows 0 20 d).rows[i]? = d.rows[i]?) ∧
    (d.rows.length < 20 → (sliceRows 0 20 d).rows = d.rows) ∧
    (writeSelectionStep (selectStep ⟨d, none, fs⟩)).data = d ∧
    (writeSelectionStep (selectStep ⟨d, none, fs⟩)).selection = some (sliceRows 0 20 d) ∧
    (writeSelectionStep (selectStep ⟨d, none, fs⟩)).outFiles =
      fs ++ [(outSelectionPath, GeoDataFrame.to_file FileFmt.geojson (sliceRows 0 20 d))] := by
  have hrows : (sliceRows 0 20 d).rows = d.rows.take 20 := by
    simp [sliceRows]
  refine ⟨rfl, hrows, ?_, ?_, ?_, rfl, rfl, rfl⟩
  · intro h
    rw [hrows, List.length_take]
    exact Nat.min_eq_left h
  · intro i hi
    rw [hrows]
    exact List.getElem?_take_of_lt hi
  · intro h
    rw [hrows]
    exact List.take_of_length_le (Nat.le_of_lt h)

/-- Row literal used by the C8 witness frames. -/
def c8Row : Row := ⟨[("FloodClass", "3")], [⟨0, 0⟩]⟩

/-- A 21-row frame. -/
def c8Frame21 : GeoDataFrame := ⟨List.replicate 21 c8Row, some CRS.epsg4326⟩

/-- A 5-row frame. -/
def c8Frame5 : GeoDataFrame := ⟨List.replicate 5 c8Row, some CRS.epsg4326⟩

/-- C8 witness: the theorem applied to a 21-row frame (slice has exactly
20 rows, row 3 preserved) and to a 5-row frame (slice keeps all rows). -/
theorem c8_selection_export_frame_effect_witness :
    (20 ≤ c8Frame21.rows.length ∧ (sliceRows 0 20 c8Frame21).rows.length = 20) ∧
    (3 < 20 ∧ (sliceRows 0 20 c8Frame21).rows[3]? = c8Frame21.rows[3]?) ∧
    (c8Frame5.rows.length < 20 ∧ (sliceRows 0 20 c8Frame5).rows = c8Frame5.rows) :=
  ⟨⟨by decide, (c8_selection_export_frame_effect c8Frame21 []).2.2.1 (by decide)⟩,
   ⟨by decide, (c8_selection_export_frame_effect c8Frame21 []).2.2.2.1 3 (by decide)⟩,
   ⟨by decide, (c8_selection_export_frame_effect c8Frame5 []).2.2.2.2.1 (by decide)⟩⟩

/-- C9: reprojection changes only the geometry.  to_crs returns a new
frame with the same number of rows, identical non-geometry attribute
columns row by row, geometry transformed pointwise by the CRS
transformation, and the target CRS tag; the reprojection cell of source
line 143 leaves the original data binding unchanged. -/
theorem c9_to_crs_changes_only_geometry (f : PyPoint → PyPoint) (t : CRS)
    (d : GeoDataFrame) :
    (GeoDataFrame.to_crs f t d).rows.length = d.rows.length ∧
    (GeoDataFrame.to_crs f t d).rows.map Row.attrs = d.rows.map Row.attrs ∧
    (GeoDataFrame.to_crs f t d).rows.map Row.geometry =
      d.rows.map (fun r => r.geometry.map f) ∧
    (GeoDataFrame.to_crs f t d).crs = some t ∧
    (∀ st : GeoDataFrame × Option GeoDataFrame, (reprojectStep f st).1 = st.1) := by
  refine ⟨by simp [GeoDataFrame.to_crs], ?_, ?_, rfl, fun st => rfl⟩
  · simp [GeoDataFrame.to_crs, List.map_map, Function.comp]
  · simp [GeoDataFrame.to_crs, List.map_map, Function.comp]

/-- C1: coordinates are ordered longitude-then-latitude.  The shapely
polygon of source line 433 stores the MIT campus tuples of line 430
unswapped with x as the first tuple component; every first component
matches the real-world MIT longitude (about -71.09) and every second
component the MIT latitude (about 42.36), and the components are more
than a degree away from the swapped assignment; the one latitude-first
consumer, folium.Map at line 366, receives the swapped pair (y, x). -/
theorem c1_lon_lat_order :
    (Polygon coordinates).map (fun p => (p.x, p.y)) = coordinates ∧
    (∀ p ∈ coordinates,
      mitCampusLon - 1/20 < p.1 ∧ p.1 < mitCampusLon + 1/20 ∧
      mitCampusLat - 1/20 < p.2 ∧ p.2 < mitCampusLat + 1/20 ∧
      p.1 < mitCampusLat - 1 ∧ mitCampusLon + 1 < p.2) ∧
    (∀ c : PyPoint, foliumMapLocation c = (c.y, c.x)) := by
  refine ⟨?_, ?_, fun c => rfl⟩
  · unfold Polygon
    rw [List.map_map]
    have h : ((fun p : PyPoint => (p.x, p.y)) ∘ fun p : ℚ × ℚ => (⟨p.1, p.2⟩ : PyPoint)) =
        id := by
      funext p
      rfl
    rw [h, List.map_id]
  intro p hp
  simp only [coordinates, List.mem_cons, List.not_mem_nil, or_false] at hp
  rcases hp with rfl | rfl | rfl | rfl <;>
    norm_num [mitCampusLon, mitCampusLat]

/-- C1 witness: the first polygon vertex, with its longitude-band and
latitude-band facts obtained from the theorem. -/
theorem c1_lon_lat_order_witness :
    ((-71.092562, 42.357602) : ℚ × ℚ) ∈ coordinates ∧
    (mitCampusLon - 1/20 < ((-71.092562, 42.357602) : ℚ × ℚ).1 ∧
     ((-71.092562, 42.357602) : ℚ × ℚ).1 < mitCampusLon + 1/20 ∧
     mitCampusLat - 1/20 < ((-71.092562, 42.357602) : ℚ × ℚ).2 ∧
     ((-71.092562, 42.357602) : ℚ × ℚ).2 < mitCampusLat + 1/20 ∧
     ((-71.092562, 42.357602) : ℚ × ℚ).1 < mitCampusLat - 1 ∧
     mitCampusLon + 1 < ((-71.092562, 42.357602) : ℚ × ℚ).2) :=
  ⟨by simp [coordinates],
   c1_lon_lat_order.2.1 ((-71.092562, 42.357602) : ℚ × ℚ) (by simp [coordinates])⟩

set_option maxHeartbeats 1600000 in
/-- C2: a CRS transform must be applied before area calculations are
meaningful.  The trace makes exactly two area calls: line 137 on a frame
still in geographic EPSG 4326 (display only, its result bound to
nothing) and line 144 on the frame reprojected to EPSG 3857; and in the
value model .area warns precisely when the frame CRS is geographic, so
the first call warns and the second does not. -/
theorem c2_area_requires_projection :
    areaCallsAudit script = true ∧
    (∀ (d : GeoDataFrame) (c : CRS), d.crs = some c →
      ((d.area).1 = some AreaWarning.geographicCRS ↔ c.isGeographic = true)) := by
  constructor
  · decide
  · intro d c h
    cases c <;> simp [GeoDataFrame.area, h, CRS.isGeographic]

/-- C2 witness: a concrete frame in EPSG 4326 whose area call warns. -/
theorem c2_area_requires_projection_witness :
    (GeoDataFrame.mk [] (some CRS.epsg4326)).crs = some CRS.epsg4326 ∧
    (((GeoDataFrame.mk [] (some CRS.epsg4326)).area).1 = some AreaWarning.geographicCRS ↔
      CRS.epsg4326.isGeographic = true) :=
  ⟨rfl, c2_area_requires_projection.2 (GeoDataFrame.mk [] (some CRS.epsg4326))
    CRS.epsg4326 rfl⟩

set_option maxHeartbeats 1600000 in
/-- C3: the pipeline order holds throughout the trace.  Every statement
consumes only names earlier statements produced (so loading precedes all
attribute inspection and all rendering of that data), every to_crs call
comes after the first gpd.read_file, every rendering call is invoked on
an already-defined frame, every ctx.add_basemap is applied to an axes
whose most recent definition was a plot call, and every to_file export
comes after every gpd.read_file load. -/
theorem c3_pipeline_order :
    wellScoped script = true ∧
    reprojectionAfterLoad script = true ∧
    rendersOnDefinedData script = true ∧
    basemapOnPlottedAxes script = true ∧
    exportsAfterLoads script = true :=
  ⟨by decide, by decide, by decide, by decide, by decide⟩

set_option maxHeartbeats 1600000 in
/-- C4: the vector file interfaces are exactly Shapefile and GeoJSON.
The trace reads vector data exactly twice, first a Shapefile then a
GeoJSON, and writes vector data exactly twice, first a GeoJSON
(driver=GeoJSON, line 407) then a Shapefile (default driver, line 472);
every vector read is a gpd.read_file call and every vector write a
to_file call, and there are exactly two of each in the whole script. -/
theorem c4_vector_file_interfaces :
    (script.filterMap Stmt.fileRead) = [FileFmt.shapefile, FileFmt.geojson] ∧
    (script.filterMap Stmt.fileWrite) = [FileFmt.geojson, FileFmt.shapefile] ∧
    (script.countP fun t => t.callees.contains Callee.gpd_read_file) = 2 ∧
    (script.countP fun t => t.callees.contains Callee.gdf_to_file) = 2 ∧
    (script.all fun t =>
      t.fileRead == none || t.callees.contains Callee.gpd_read_file) = true ∧
    (script.all fun t =>
      t.fileWrite == none || t.callees.contains Callee.gdf_to_file) = true :=
  ⟨by decide, by decide, by decide, by decide, by decide, by decide⟩

/-- Helper for C5: in a statement list whose failing statement is not a
try/except, an exception raised after a successfully completed prefix
aborts the whole run with the state the prefix produced. -/
theorem runFrom_append_raise {σ : Type} (sem : Stmt → σ → Except Unit σ)
    (t : Stmt) (post : List Stmt) (ht : t.kind ≠ StmtKind.tryExcept) :
    ∀ (pre : List Stmt) (st st1 : σ),
      runFrom sem pre st = Outcome.ok st1 → sem t st1 = Except.error () →
      runFrom sem (pre ++ t :: post) st = Outcome.raised st1 := by
  intro pre
  induction pre with
  | nil =>
      intro st st1 hpre hsem
      simp only [runFrom] at hpre
      cases hpre
      simp only [List.nil_append, runFrom, hsem]
      rw [if_neg ht]
  | cons u pre ih =>
      intro st st1 hpre hsem
      rw [List.cons_append]
      cases hu : sem u st with
      | ok st2 =>
          simp only [runFrom, hu] at hpre ⊢
          exact ih st2 st1 hpre hsem
      | error v =>
          simp only [runFrom, hu] at hpre ⊢
          by_cases hk : u.kind = StmtKind.tryExcept
          · rw [if_pos hk] at hpre ⊢
            exact ih st st1 hpre hsem
          · rw [if_neg hk] at hpre
            simp at hpre

set_option maxHeartbeats 1600000 in
/-- C5: the script contains no error handling.  The trace has no
try/except statement, so under any per-statement semantics, an exception
raised by any statement after a successfully completed prefix propagates
uncaught out of the whole script, leaving exactly the state the partial
execution produced. -/
theorem c5_exceptions_propagate :
    (script.countP fun t => t.kind == StmtKind.tryExcept) = 0 ∧
    ∀ (σ : Type) (sem : Stmt → σ → Except Unit σ) (pre : List Stmt) (t : Stmt)
      (post : List Stmt) (st st1 : σ),
      script = pre ++ t :: post →
      runFrom sem pre st = Outcome.ok st1 →
      sem t st1 = Except.error () →
      runFrom sem script st = Outcome.raised st1 := by
  constructor
  · decide
  · intro σ sem pre t post st st1 hsplit hpre hsem
    have hmem : t ∈ script := by
      rw [hsplit]
      exact List.mem_append_right _ (List.mem_cons_self t post)
    have hall : ∀ u ∈ script, u.kind ≠ StmtKind.tryExcept := by decide
    rw [hsplit]
    exact runFrom_append_raise sem t post (hall t hmem) pre st st1 hpre hsem

/-- Semantics that fails exactly at the gpd.read_file statement of source
line 58 (e.g. the input file is missing) and succeeds elsewhere. -/
def semFailRead : Stmt → Unit → Except Unit Unit :=
  fun t _ => if t.line == 58 then Except.error () else Except.ok ()

/-- The read_file statement of source line 58 (index 9 of the trace). -/
def readStmt58 : Stmt := script.get ⟨9, by decide⟩

set_option maxHeartbeats 1600000 in
/-- C5 witness: a missing input file at line 58 aborts the run, with the
nine statements before it already executed. -/
theorem c5_exceptions_propagate_witness :
    script = script.take 9 ++ readStmt58 :: script.drop 10 ∧
    runFrom semFailRead (script.take 9) () = Outcome.ok () ∧
    semFailRead readStmt58 () = Except.error () ∧
    runFrom semFailRead script () = Outcome.raised () :=
  ⟨by decide, rfl, rfl,
   c5_exceptions_propagate.2 Unit semFailRead (script.take 9) readStmt58
     (script.drop 10) () () (by decide) rfl rfl⟩

set_option maxHeartbeats 1600000 in
/-- C6 counterexample: not every statement of the script is a single
geospatial-library invocation.  The shell statements at source lines 48
(unzip) and 394 (mkdir) run through get_ipython().system, which is not a
geospatial library, so the claimed property is false on the trace. -/
theorem c6_not_all_single_geospatial_calls :
    script.all stmtIsSingleGeoCall = false ∧
    ((script.filter fun t => t.kind == StmtKind.shellCmd).map Stmt.line) = [48, 394] ∧
    ((script.filter fun t => t.kind == StmtKind.shellCmd).all stmtIsSingleGeoCall) =
      false :=
  ⟨by decide, by decide, by decide⟩

set_option maxHeartbeats 1600000 in
/-- C6 (amended): every statement of the script is pedagogical glue (an
import, a shell command through get_ipython().system, a literal
assignment, or a bare display expression) or performs its computation
exclusively through calls into pre-built external libraries or Python
builtins; the script contains no loops, conditionals inside statements,
function or class definitions, with-blocks, raise statements, exception
handlers, or thread/async constructs, hence no original algorithmic
computation. -/
theorem c6_amended_external_library_glue :
    script.all stmtGlueOrLibrary = true ∧
    (script.countP fun t =>
      [StmtKind.tryExcept, StmtKind.forLoop, StmtKind.whileLoop, StmtKind.funcDef,
       StmtKind.classDef, StmtKind.withStmt, StmtKind.raiseStmt,
       StmtKind.asyncSpawn].contains t.kind) = 0 :=
  ⟨by decide, by decide⟩

set_option maxHeartbeats 1600000 in
/-- C7: execution is a single sequential trace.  The script creates no
threads, processes or asynchronous tasks (no statement of the trace is a
spawn construct), and the small-step semantics is deterministic: from
any configuration at most one successor exists, and a step is possible
exactly when the head statement runs to completion, so every statement
completes before the next begins. -/
theorem c7_single_sequential_trace :
    (script.countP fun t => t.kind == StmtKind.asyncSpawn) = 0 ∧
    (∀ (σ : Type) (sem : Stmt → σ → Option σ) (c c1 c2 : List Stmt × σ),
      PyStep sem c c1 → PyStep sem c c2 → c1 = c2) ∧
    (∀ (σ : Type) (sem : Stmt → σ → Option σ) (t : Stmt) (rest : List Stmt) (st : σ)
      (cfg : List Stmt × σ),
      PyStep sem (t :: rest, st) cfg ↔ ∃ st2, sem t st = some st2 ∧ cfg = (rest, st2)) := by
  refine ⟨by decide, ?_, ?_⟩
  · intro σ sem c c1 c2 h1 h2
    cases h1 with
    | exec t rest st st2 hsem =>
        cases h2 with
        | exec _ _ _ st3 hsem2 =>
            rw [hsem] at hsem2
            cases hsem2
            rfl
  · intro σ sem t rest st cfg
    constructor
    · intro h
      cases h with
      | exec _ _ _ st2 hsem => exact ⟨st2, hsem, rfl⟩
    · rintro ⟨st2, hsem, rfl⟩
      exact PyStep.exec t rest st st2 hsem

/-- Semantics in which every statement succeeds without changing state. -/
def semNoop : Stmt → Unit → Option Unit := fun _ _ => some ()

/-- C7 witness: determinism applied to two concrete steps from the same
configuration. -/
theorem c7_single_sequential_trace_witness :
    PyStep semNoop ([readStmt58], ()) ([], ()) ∧
    (([], ()) : List Stmt × Unit) = (([], ()) : List Stmt × Unit) :=
  ⟨PyStep.exec readStmt58 [] () () rfl,
   c7_single_sequential_trace.2.1 Unit semNoop ([readStmt58], ()) ([], ()) ([], ())
     (PyStep.exec readStmt58 [] () () rfl) (PyStep.exec readStmt58 [] () () rfl)⟩
